import Mathlib

/-!
Verification development for `sampling_script.py` (assoudix/sampling): an R&D
project sampler.  The Python module is shallowly embedded below.  The
process-wide pseudo-random generator of the `random` module is modelled as an
explicit natural-number state threaded through the functions; `random.sample`
is modelled as a partial Fisher–Yates draw without replacement over positions,
which is the contract the standard library primitive provides.  Spreadsheet
input (pandas) is modelled at the collaborator boundary as either an
unreadable file or an in-memory table of named columns with optional (NA)
cells.
-/

/-- One linear-congruential step of the modelled pseudo-random generator
(stand-in for the `random` module's internal state transition). -/
def randStep (s : Nat) : Nat :=
  (s * 1103515245 + 12345) % 2147483648

/-- Model of `random.seed(s)`: maps the seed value to a generator state. -/
def pySeed (s : Int) : Nat :=
  (s.natAbs * 2654435761 + 1013904223) % 2147483648

/-- Python truthiness of the optional integer `seed` argument:
`None` and `0` are falsy, every other integer is truthy. -/
def pyTruthy : Option Int → Bool
  | none => false
  | some s => s != 0

/-- `RDProjectRandomizer.__init__(seed)` (src lines 13-16): seeds the
process-wide generator only when `seed` is truthy. -/
def rdInit (seed : Option Int) (st : Nat) : Nat :=
  if pyTruthy seed then pySeed (seed.getD 0) else st

/-- Model of `random.sample(l, k)`: draw `k` elements without replacement over
positions of `l`, consuming generator state.  The draw repeatedly picks a
uniform position of the remaining pool and removes it. -/
def sample {α : Type} : Nat → List α → Nat → List α × Nat
  | st, _, 0 => ([], st)
  | st, [], _ + 1 => ([], st)
  | st, x :: xs, k + 1 =>
    ((x :: xs).getD (randStep st % (xs.length + 1)) x ::
        (sample (randStep st) ((x :: xs).eraseIdx (randStep st % (xs.length + 1))) k).1,
      (sample (randStep st) ((x :: xs).eraseIdx (randStep st % (xs.length + 1))) k).2)

/-- `select_random_projects` (src lines 50-69).  Returns the selected list, a
flag recording whether the clamping warning was printed, and the final
generator state. -/
def select_random_projects (st : Nat) (projects : List String) (num_to_select : Int) :
    List String × Bool × Nat :=
  let warned := decide ((projects.length : Int) < num_to_select)
  let n : Int :=
    if (projects.length : Int) < num_to_select then (projects.length : Int) else num_to_select
  if n ≤ 0 then ([], warned, st)
  else ((sample st projects n.toNat).1, warned, (sample st projects n.toNat).2)

/-- The recommendation dictionary built by `get_recommended_sample_size`. -/
structure Recommendations where
  total_projects : Nat
  conservative : Nat
  moderate : Nat
  aggressive : Nat
  notes : List String
  deriving DecidableEq, Repr

/-- The four general notes appended for every bucket (src lines 126-131). -/
def general_notes : List String :=
  ["Conservative: Lower audit risk, higher documentation cost",
   "Moderate: Balanced approach, most common selection",
   "Aggressive: Higher audit risk, lower documentation cost",
   "Consider project size, complexity, and credit value when selecting"]

/-- `get_recommended_sample_size` (src lines 71-133): fixed bucket table on the
total project count. -/
def get_recommended_sample_size (total_projects : Nat) : Recommendations :=
  if total_projects ≤ 10 then
    ⟨total_projects, total_projects, total_projects, total_projects,
      "Document all projects for small portfolios" :: general_notes⟩
  else if total_projects ≤ 25 then
    ⟨total_projects, min total_projects 15, min total_projects 12, min total_projects 8,
      "Small portfolio - document majority of projects" :: general_notes⟩
  else if total_projects ≤ 50 then
    ⟨total_projects, min total_projects 25, min total_projects 18, min total_projects 12,
      "Medium portfolio - 25-50% documentation typical" :: general_notes⟩
  else if total_projects ≤ 100 then
    ⟨total_projects, min total_projects 35, min total_projects 25, min total_projects 15,
      "Large portfolio - 15-35% documentation common" :: general_notes⟩
  else if total_projects ≤ 200 then
    ⟨total_projects, min total_projects 50, min total_projects 35, min total_projects 20,
      "Very large portfolio - 10-25% documentation" :: general_notes⟩
  else
    ⟨total_projects, min total_projects 75, min total_projects 50, min total_projects 30,
      "Enterprise portfolio - 5-15% documentation may suffice" :: general_notes⟩

/-- Modelled from the spec: the bucket table of section 4.4 as written, with
inclusive boundaries, giving (conservative, moderate, aggressive). -/
def spec_bucket_row (N : Nat) : Nat × Nat × Nat :=
  if N ≤ 10 then (N, N, N)
  else if 11 ≤ N ∧ N ≤ 25 then (min N 15, min N 12, min N 8)
  else if 26 ≤ N ∧ N ≤ 50 then (min N 25, min N 18, min N 12)
  else if 51 ≤ N ∧ N ≤ 100 then (min N 35, min N 25, min N 15)
  else if 101 ≤ N ∧ N ≤ 200 then (min N 50, min N 35, min N 20)
  else (min N 75, min N 50, min N 30)

/-- Model of Python `str.strip()`: drop leading and trailing whitespace
characters. -/
def pyStrip (s : String) : String :=
  ⟨((s.data.dropWhile Char.isWhitespace).reverse.dropWhile Char.isWhitespace).reverse⟩

/-- Normalization of an in-memory input list (src line 155): coerce each entry
to text, strip whitespace, keep only entries whose stripped form is
non-empty.  A Python comprehension with a filter maps over the kept entries. -/
def normalize_list (input_data : List String) : List String :=
  (input_data.filter (fun p => decide (pyStrip p ≠ ""))).map pyStrip

/-- An Excel table at the collaborator boundary: named columns, cells possibly
NA (`none`). -/
structure ExcelTable where
  cols : List (String × List (Option String))
  deriving DecidableEq

/-- The state of the external file a path refers to: unreadable/unparsable, or
a readable table. -/
inductive ExcelSource
  | unreadable
  | table (t : ExcelTable)
  deriving DecidableEq

/-- Reading the first column (src line 38): `df.iloc[:, 0]` raises on a table
with no columns, which the surrounding handler converts to `([], diagnostic)`;
otherwise NA cells are dropped and entries normalized. -/
def loadFirstCol (t : ExcelTable) : List String × Bool :=
  match t.cols with
  | [] => ([], true)
  | c :: _ =>
    (((c.2.filterMap id).filter (fun p => decide (pyStrip p ≠ ""))).map pyStrip, false)

/-- `load_projects_from_excel` (src lines 18-48).  Returns the loaded project
list and a flag recording whether a diagnostic was printed; every failure is
caught inside the function. -/
def load_projects_from_excel (file : ExcelSource) (project_column : Option String) :
    List String × Bool :=
  match file with
  | .unreadable => ([], true)
  | .table t =>
    match project_column with
    | none => loadFirstCol t
    | some col =>
      if col = "" then loadFirstCol t
      else
        match t.cols.find? (fun c => c.1 == col) with
        | none => ([], true)
        | some c =>
          (((c.2.filterMap id).filter (fun p => decide (pyStrip p ≠ ""))).map pyStrip, false)

/-- The `input_data` argument of `randomize_projects`: a file path (modelled by
what the external world holds at that path) or an in-memory list. -/
inductive InputData
  | path (file : ExcelSource)
  | strlist (items : List String)
  deriving DecidableEq

/-- The recommendation level argument (argparse restricts it to these three). -/
inductive Level
  | conservative
  | moderate
  | aggressive
  deriving DecidableEq

/-- Dictionary access `recommendations[recommendation_level]` (src line 168). -/
def levelCount (r : Recommendations) : Level → Nat
  | .conservative => r.conservative
  | .moderate => r.moderate
  | .aggressive => r.aggressive

/-- The success payload of `randomize_projects` (src lines 174-180). -/
structure SuccessResult where
  total_projects : Nat
  selected_count : Nat
  selected_projects : List String
  recommendations : Recommendations
  selection_percentage : Rat
  deriving DecidableEq

/-- The dictionary returned by `randomize_projects`: either `{'error': ...}`
or the full result. -/
inductive RandomizeResult
  | error (msg : String)
  | ok (r : SuccessResult)
  deriving DecidableEq

/-- Rounding to one decimal place, `round(x, 1)`. -/
def round1 (x : Rat) : Rat :=
  (round (x * 10) : Int) / 10

/-- Step 1 of `randomize_projects` (src lines 152-158): resolve the input to a
project list. -/
def resolve_projects (input_data : InputData) (project_column : Option String) :
    List String :=
  match input_data with
  | .path f => (load_projects_from_excel f project_column).1
  | .strlist items => normalize_list items

/-- `randomize_projects` (src lines 135-180), with the generator state
threaded explicitly. -/
def randomize_projects (st : Nat) (input_data : InputData) (num_to_select : Option Int)
    (project_column : Option String) (recommendation_level : Level) :
    RandomizeResult × Nat :=
  let projects := resolve_projects input_data project_column
  if projects = [] then (.error "No projects found in input", st)
  else
    let recs := get_recommended_sample_size projects.length
    let k : Int :=
      match num_to_select with
      | none => (levelCount recs recommendation_level : Int)
      | some n => n
    let out := select_random_projects st projects k
    (.ok ⟨projects.length, out.1.length, out.1, recs,
        round1 ((out.1.length : Rat) / (projects.length : Rat) * 100)⟩,
      out.2.2)

/-! ### Helper lemmas about the sampling primitive -/

/-- Unfolding equation of `sample` at a zero request. -/
theorem sample_zero {α : Type} (st : Nat) (l : List α) : sample st l 0 = ([], st) := by
  cases l <;> rfl

/-- Unfolding equation of `sample` on an exhausted pool. -/
theorem sample_nil {α : Type} (st k : Nat) : sample st ([] : List α) (k + 1) = ([], st) := rfl

/-- Unfolding equation of `sample` on a non-empty pool. -/
theorem sample_cons {α : Type} (st : Nat) (x : α) (xs : List α) (k : Nat) :
    sample st (x :: xs) (k + 1) =
      ((x :: xs).getD (randStep st % (xs.length + 1)) x ::
          (sample (randStep st) ((x :: xs).eraseIdx (randStep st % (xs.length + 1))) k).1,
        (sample (randStep st) ((x :: xs).eraseIdx (randStep st % (xs.length + 1))) k).2) := rfl

/-- Removing the element drawn at index `i` and re-consing it permutes the
pool. -/
theorem getD_cons_eraseIdx_perm {α : Type} (d : α) :
    ∀ (l : List α) (i : Nat), i < l.length → List.Perm (l.getD i d :: l.eraseIdx i) l := by
  intro l
  induction l with
  | nil => intro i h; simp at h
  | cons x xs ih =>
    intro i h
    cases i with
    | zero => simp [List.getD]
    | succ i =>
      have h' : i < xs.length := by simpa using h
      have hswap : List.Perm (xs.getD i d :: x :: xs.eraseIdx i)
          (x :: (xs.getD i d :: xs.eraseIdx i)) := List.Perm.swap _ _ _
      have htail : List.Perm (x :: (xs.getD i d :: xs.eraseIdx i)) (x :: xs) :=
        (ih i h').cons x
      exact hswap.trans htail

/-- The drawn sample is a sub-multiset of the pool: each value occurs in the
output at most as often as in the input. -/
theorem sample_multiset_le {α : Type} :
    ∀ (k st : Nat) (l : List α), ((sample st l k).1 : Multiset α) ≤ (l : Multiset α)
  | 0, st, l => by rw [sample_zero]; simp
  | _ + 1, st, [] => by rw [sample_nil]
  | k + 1, st, x :: xs => by
    have hi : randStep st % (xs.length + 1) < (x :: xs).length :=
      Nat.mod_lt _ (Nat.succ_pos _)
    have hrec := sample_multiset_le k (randStep st)
      ((x :: xs).eraseIdx (randStep st % (xs.length + 1)))
    have hcons := Multiset.cons_le_cons ((x :: xs).getD (randStep st % (xs.length + 1)) x) hrec
    have hperm := getD_cons_eraseIdx_perm x (x :: xs) (randStep st % (xs.length + 1)) hi
    rw [sample_cons]
    rw [show (((x :: xs).getD (randStep st % (xs.length + 1)) x ::
          (sample (randStep st) ((x :: xs).eraseIdx (randStep st % (xs.length + 1))) k).1 :
            List α) : Multiset α)
        = (x :: xs).getD (randStep st % (xs.length + 1)) x ::ₘ
          ((sample (randStep st) ((x :: xs).eraseIdx (randStep st % (xs.length + 1))) k).1 :
            Multiset α) from (Multiset.cons_coe _ _).symm]
    refine le_trans hcons (le_of_eq ?_)
    rw [Multiset.cons_coe, Multiset.coe_eq_coe]
    exact hperm

/-- When at most `l.length` elements are requested, the sample has exactly the
requested length. -/
theorem sample_length {α : Type} :
    ∀ (k st : Nat) (l : List α), k ≤ l.length → (sample st l k).1.length = k
  | 0, st, l, _ => by rw [sample_zero]; rfl
  | _ + 1, _, [], h => by simp at h
  | k + 1, st, x :: xs, h => by
    have hi : randStep st % (xs.length + 1) < (x :: xs).length :=
      Nat.mod_lt _ (Nat.succ_pos _)
    have hlen : ((x :: xs).eraseIdx (randStep st % (xs.length + 1))).length = xs.length := by
      rw [List.length_eraseIdx_of_lt hi]
      simp
    have hk : k ≤ ((x :: xs).eraseIdx (randStep st % (xs.length + 1))).length := by
      rw [hlen]
      simpa using h
    have hrec := sample_length k (randStep st)
      ((x :: xs).eraseIdx (randStep st % (xs.length + 1))) hk
    rw [sample_cons]
    simp [hrec]

/-- Every sampled element comes from the pool. -/
theorem sample_mem {α : Type} (k st : Nat) (l : List α) :
    ∀ x ∈ (sample st l k).1, x ∈ l := by
  intro x hx
  have := Multiset.mem_of_le (sample_multiset_le k st l) (by simpa using hx)
  simpa using this

/-- A sample drawn from a duplicate-free pool is duplicate-free. -/
theorem sample_nodup {α : Type} (k st : Nat) (l : List α) (h : l.Nodup) :
    (sample st l k).1.Nodup :=
  Multiset.coe_nodup.mp
    (Multiset.nodup_of_le (sample_multiset_le k st l) (Multiset.coe_nodup.mpr h))

/-! ### Claim theorems -/

/-- C1 (counterexample): as stated over every non-empty project list, the claim
fails — with the duplicate-carrying input `["a", "a"]` and `K = 2` the
selection (which draws without replacement over positions, not values)
returns `["a", "a"]`, in which the element `"a"` appears twice. -/
theorem select_random_projects_dup_counterexample :
    (select_random_projects 0 ["a", "a"] 2).1 = ["a", "a"] ∧
      ¬ (select_random_projects 0 ["a", "a"] 2).1.Nodup := by
  exact ⟨by decide, by decide⟩

/-- C1 (amended): for every duplicate-free non-empty project list `P` and
every `K` with `0 < K ≤ |P|`, `select_random_projects` returns exactly `K`
elements, each a member of `P`, with no element appearing twice. -/
theorem select_random_projects_exact_nodup (st : Nat) (P : List String) (K : Int)
    (hnd : P.Nodup) (h1 : 0 < K) (h2 : K ≤ (P.length : Int)) :
    (select_random_projects st P K).1.length = K.toNat ∧
      (∀ x ∈ (select_random_projects st P K).1, x ∈ P) ∧
      (select_random_projects st P K).1.Nodup := by
  have hsel : (select_random_projects st P K).1 = (sample st P K.toNat).1 := by
    simp only [select_random_projects]
    rw [if_neg (by omega : ¬ (P.length : Int) < K)]
    rw [if_neg (by omega : ¬ K ≤ 0)]
  have hk : K.toNat ≤ P.length := by omega
  refine ⟨?_, ?_, ?_⟩
  · rw [hsel]; exact sample_length _ _ _ hk
  · rw [hsel]; exact sample_mem _ _ _
  · rw [hsel]; exact sample_nodup _ _ _ hnd

/-- C1 witness: the amended claim instantiated at `P = ["a","b","c"]`,
`K = 2`, initial generator state `0`. -/
theorem select_random_projects_exact_nodup_witness :
    (select_random_projects 0 ["a", "b", "c"] 2).1.length = (2 : Int).toNat ∧
      (∀ x ∈ (select_random_projects 0 ["a", "b", "c"] 2).1, x ∈ ["a", "b", "c"]) ∧
      (select_random_projects 0 ["a", "b", "c"] 2).1.Nodup :=
  select_random_projects_exact_nodup 0 ["a", "b", "c"] 2 (by decide) (by decide) (by decide)

/-- C4: when more elements are requested than available the result is clamped
to the full population size and the warning is emitted; a non-positive
request yields the empty selection. -/
theorem select_random_projects_clamp_and_empty (st : Nat) (P : List String) (K : Int) :
    ((P.length : Int) < K →
        (select_random_projects st P K).1.length = P.length ∧
          (select_random_projects st P K).2.1 = true) ∧
      (K ≤ 0 → (select_random_projects st P K).1 = []) := by
  constructor
  · intro hgt
    have hw : (select_random_projects st P K).2.1 = true := by
      simp only [select_random_projects]
      split_ifs <;> simp [hgt]
    refine ⟨?_, hw⟩
    simp only [select_random_projects]
    rw [if_pos hgt]
    by_cases hz : (P.length : Int) ≤ 0
    · rw [if_pos hz]
      have h0 : P.length = 0 := by omega
      simp [h0]
    · rw [if_neg hz]
      have hcast : ((P.length : Int)).toNat = P.length := by omega
      rw [hcast]
      exact sample_length _ _ _ (le_refl _)
  · intro hle
    simp only [select_random_projects]
    rw [if_neg (by omega : ¬ (P.length : Int) < K)]
    rw [if_pos hle]

/-- C4 witness: requesting 5 of 2 yields 2 elements plus the warning flag, and
requesting −1 yields the empty selection. -/
theorem select_random_projects_clamp_and_empty_witness :
    ((select_random_projects 0 ["a", "b"] 5).1.length = (["a", "b"] : List String).length ∧
        (select_random_projects 0 ["a", "b"] 5).2.1 = true) ∧
      (select_random_projects 0 ["a", "b"] (-1)).1 = [] :=
  ⟨(select_random_projects_clamp_and_empty 0 ["a", "b"] 5).1 (by decide),
    (select_random_projects_clamp_and_empty 0 ["a", "b"] (-1)).2 (by decide)⟩

/-- C9: for every project list (duplicates permitted) and every requested
count, the selection is multiset-contained in the input: each name occurs in
the output at most as often as in the input. -/
theorem select_random_projects_multiset_le (st : Nat) (P : List String) (K : Int) :
    ((select_random_projects st P K).1 : Multiset String) ≤ (P : Multiset String) := by
  simp only [select_random_projects]
  split_ifs <;> first
    | exact sample_multiset_le _ _ _
    | simp

/-- C2: the three tier counts reproduce the spec's bucket table with inclusive
upper boundaries for every non-negative total, and in particular the boundary
cases N = 10 (all tiers 10) and N = 11 (conservative 11, moderate 11,
aggressive 8). -/
theorem get_recommended_sample_size_matches_table :
    (∀ N : Nat, ((get_recommended_sample_size N).conservative,
        (get_recommended_sample_size N).moderate,
        (get_recommended_sample_size N).aggressive) = spec_bucket_row N) ∧
      ((get_recommended_sample_size 10).conservative,
        (get_recommended_sample_size 10).moderate,
        (get_recommended_sample_size 10).aggressive) = (10, 10, 10) ∧
      ((get_recommended_sample_size 11).conservative,
        (get_recommended_sample_size 11).moderate,
        (get_recommended_sample_size 11).aggressive) = (11, 11, 8) := by
  refine ⟨?_, by decide, by decide⟩
  intro N
  unfold get_recommended_sample_size spec_bucket_row
  split_ifs <;> first
    | rfl
    | (exfalso; omega)

/-- C8: for every total, the tier counts are ordered
conservative ≥ moderate ≥ aggressive, and each is at most the total. -/
theorem get_recommended_sample_size_ordered (N : Nat) :
    (get_recommended_sample_size N).moderate ≤ (get_recommended_sample_size N).conservative ∧
      (get_recommended_sample_size N).aggressive ≤ (get_recommended_sample_size N).moderate ∧
      (get_recommended_sample_size N).conservative ≤ N ∧
      (get_recommended_sample_size N).moderate ≤ N ∧
      (get_recommended_sample_size N).aggressive ≤ N := by
  unfold get_recommended_sample_size
  split_ifs <;> simp

/-- Two-run experiment of the determinism property: each run starts from its
own prior process generator state, constructs the randomizer with the given
seed argument, then performs the selection. -/
def seeded_selection (seed : Option Int) (st : Nat) (projects : List String)
    (k : Int) : List String :=
  (select_random_projects (rdInit seed st) projects k).1

/-- C3 (counterexample): with the explicit seed 0 the seeding branch does not
run (`if seed:` is false for 0), so two runs whose prior generator states
differ produce different selections. -/
theorem seeded_selection_seed_zero_counterexample :
    seeded_selection (some 0) 0 ["a", "b"] 1 ≠ seeded_selection (some 0) 1 ["a", "b"] 1 := by
  decide

/-- C3 (amended): for every explicit nonzero seed S, two runs that each
initialize the sampler with seed S and then perform the same selection produce
identical output sequences, whatever generator states the runs started from. -/
theorem seeded_selection_deterministic (S : Int) (hS : S ≠ 0)
    (st1 st2 : Nat) (P : List String) (K : Int) :
    seeded_selection (some S) st1 P K = seeded_selection (some S) st2 P K := by
  unfold seeded_selection rdInit
  have ht : pyTruthy (some S) = true := by simp [pyTruthy, hS]
  rw [ht]
  simp

/-- C3 witness: the amended determinism claim at seed 42 from prior states 0
and 999. -/
theorem seeded_selection_deterministic_witness :
    seeded_selection (some 42) 0 ["a", "b", "c"] 2 =
      seeded_selection (some 42) 999 ["a", "b", "c"] 2 :=
  seeded_selection_deterministic 42 (by decide) 0 999 ["a", "b", "c"] 2

/-- C10: constructing the randomizer with seed 0 or with no seed leaves the
generator state unchanged, and seed 0 behaves exactly like passing no seed. -/
theorem rdInit_falsy_seed_frame (st : Nat) :
    rdInit (some 0) st = st ∧ rdInit none st = st ∧
      rdInit (some 0) st = rdInit none st := by
  exact ⟨rfl, rfl, rfl⟩

/-- C5: normalization maps each entry to its stripped text and keeps, in input
order, exactly the entries whose stripped form is non-empty; in particular
the documented example holds, and every survivor is a non-empty stripped
input entry. -/
theorem normalize_list_spec :
    normalize_list ["  Foo  ", "", "Bar", "   "] = ["Foo", "Bar"] ∧
      (∀ l : List String,
        normalize_list l = (l.map pyStrip).filter (fun s => decide (s ≠ ""))) ∧
      (∀ (l : List String) (s : String), s ∈ normalize_list l →
        s ≠ "" ∧ ∃ x ∈ l, s = pyStrip x) := by
  refine ⟨by decide, ?_, ?_⟩
  · intro l
    unfold normalize_list
    rw [List.filter_map]
    rfl
  · intro l s hs
    unfold normalize_list at hs
    simp only [List.mem_map, List.mem_filter] at hs
    obtain ⟨x, ⟨hxl, hxne⟩, rfl⟩ := hs
    exact ⟨by simpa using hxne, x, hxl, rfl⟩

/-- C5 witness: the membership characterization applied to the documented
example at the survivor `"Foo"`. -/
theorem normalize_list_spec_witness :
    "Foo" ≠ "" ∧ ∃ x ∈ ["  Foo  ", "", "Bar", "   "], "Foo" = pyStrip x :=
  normalize_list_spec.2.2 ["  Foo  ", "", "Bar", "   "] "Foo" (by decide)

/-- C6: whenever the resolved project set is empty, `randomize_projects`
returns the dictionary carrying only the error string, with the generator
state untouched — no recommendation or selection processing happens. -/
theorem randomize_projects_empty_error (st : Nat) (input : InputData)
    (num : Option Int) (pc : Option String) (lvl : Level)
    (h : resolve_projects input pc = []) :
    randomize_projects st input num pc lvl =
      (.error "No projects found in input", st) := by
  simp only [randomize_projects]
  rw [h]
  simp

/-- C6 witness: an input list whose entries all normalize to empty resolves to
the empty set and produces the error result. -/
theorem randomize_projects_empty_error_witness :
    randomize_projects 0 (.strlist ["   ", ""]) none none .moderate =
      (.error "No projects found in input", 0) :=
  randomize_projects_empty_error 0 (.strlist ["   ", ""]) none none .moderate (by decide)

/-- C7: every spreadsheet-loading failure — unreadable/unparsable file, or a
named column absent from the table — yields the empty project list together
with the diagnostic flag; the function itself catches the failure, so no
exception reaches the caller. -/
theorem load_projects_from_excel_soft_fail :
    (∀ pc : Option String, load_projects_from_excel .unreadable pc = ([], true)) ∧
      (∀ (t : ExcelTable) (col : String), col ≠ "" →
        t.cols.find? (fun c => c.1 == col) = none →
        load_projects_from_excel (.table t) (some col) = ([], true)) := by
  constructor
  · intro pc; rfl
  · intro t col hcol hfind
    have hstep : load_projects_from_excel (.table t) (some col) =
        if col = "" then loadFirstCol t
        else
          match t.cols.find? (fun c => c.1 == col) with
          | none => ([], true)
          | some c =>
            (((c.2.filterMap id).filter (fun p => decide (pyStrip p ≠ ""))).map pyStrip,
              false) := rfl
    rw [hstep, if_neg hcol, hfind]

/-- C7 witness: loading a one-column table under a non-existent column name
fails softly to the empty list plus a diagnostic. -/
theorem load_projects_from_excel_soft_fail_witness :
    load_projects_from_excel (.table ⟨[("Projects", [some "A"])]⟩) (some "Missing") =
      ([], true) :=
  load_projects_from_excel_soft_fail.2 ⟨[("Projects", [some "A"])]⟩ "Missing"
    (by decide) (by decide)
